import Mathlib

/-!
# Verification of the hero data-access service and debounced search pipeline

A shallow embedding of the two core pieces of the repository:

* `HeroService` (the spec's *EntityStore*): a CRUD facade over the REST
  collection resource `api/heroes`, with uniform logging through a message
  sink and "swallow and degrade" error recovery (`handleError`).
* `HeroSearchComponent.ngOnInit` (the spec's *SearchPipeline*): the RxJS
  chain `debounceTime(300) -> distinctUntilChanged -> switchMap(searchHeroes)`
  over the stream of submitted search terms.
* The collection-view mutations performed by `HeroesComponent.add` and
  `HeroesComponent.delete`.

Effects are made explicit: each service operation is a pure function from
the outcome of its (single) underlying HTTP call to a record holding the
resolved value, the messages appended to the message sink, the errors
written to the diagnostic console, and the HTTP calls issued.  Totality of
these functions reflects the service's contract that no operation ever
rejects past the `catchError` boundary.

Time is modelled in milliseconds as `Nat`.  A submitted-term trace is a
list of `(time, term)` pairs in arrival order; the pipeline stages are pure
functions on such traces, and response delivery for dispatched searches is
an explicit schedule mapping each dispatch index to an optional
`(arrivalTime, payload)` pair (`none` = the request never resolves).
-/

/-- A JavaScript error value as seen by `handleError`: only its `message`
field is read (`error.message`). -/
structure JsError where
  message : String
deriving Repr, DecidableEq

/-- Modelled from the spec: the domain record (`Entity`, file `hero.ts` is
not among the provided sources) is `id : integer` plus `name : string`.
The extra `ref` field is an object-identity tag so that JavaScript
reference (in)equality between two structurally equal hero objects
(`h !== hero` in `HeroesComponent.delete`) is expressible: two objects are
the same reference iff their `ref` tags agree. -/
structure Hero where
  ref : Nat
  id : Nat
  name : String
deriving Repr, DecidableEq

/-- The body of `addHero`'s POST: `{ name } as Hero`, an object carrying
only a `name` (the id is server-assigned). -/
structure NewHero where
  name : String
deriving Repr, DecidableEq

/-- An HTTP request issued by the service, identified by method and URL. -/
structure HttpCall where
  method : String
  url : String
deriving Repr, DecidableEq

/-- The outcome of a single underlying HTTP call: the parsed success body,
or a transport-level failure carried to `catchError`. -/
inductive HttpOutcome (α : Type) where
  | success (value : α)
  | failure (error : JsError)
deriving Repr, DecidableEq

/-- The observable effects and resolved value of one service operation:
the value the caller's `subscribe` receives, the strings appended to the
message sink (`MessageService.add`, append-only per the spec), the errors
recorded to the diagnostic console (`console.error`), and the HTTP calls
issued. -/
structure OpResult (α : Type) where
  result : α
  messages : List String
  consoleErrors : List JsError
  httpCalls : List HttpCall
deriving Repr, DecidableEq

/-- JavaScript `String.prototype.trim()`: strip leading and trailing
whitespace.  Defined by structural recursion over the character list so
that it evaluates inside the kernel; it agrees with `String.trim` (and
with JS `trim()` on ASCII input). -/
def jsTrim (s : String) : String :=
  ⟨((s.data.dropWhile Char.isWhitespace).reverse.dropWhile Char.isWhitespace).reverse⟩

/-- `private heroesUrl = 'api/heroes'`. -/
def heroesUrl : String := "api/heroes"

/-- `HeroService.log`: prefix a message with `HeroService: ` before handing
it to the message sink. -/
def serviceLog (message : String) : String := "HeroService: " ++ message

/-- The sink message produced by `handleError`'s recovery path:
`this.log(`${operation} failed: ${error.message}`)`. -/
def failMsg (operationName : String) (e : JsError) : String :=
  serviceLog (operationName ++ " failed: " ++ e.message)

/-- `HeroService.getHeroes`: appends `HeroService: fetched heroes` to the
sink synchronously at invocation, issues `GET api/heroes`, then on success
`tap`-logs `fetched heroes` and yields the body; on failure
`handleError('getHeroes', [])` records the error to the console, emits the
failure sink message and resolves to the empty-array fallback. -/
def getHeroes (outcome : HttpOutcome (List Hero)) : OpResult (List Hero) :=
  match outcome with
  | .success heroes =>
      { result := heroes
        messages := ["HeroService: fetched heroes", serviceLog "fetched heroes"]
        consoleErrors := []
        httpCalls := [⟨"GET", heroesUrl⟩] }
  | .failure e =>
      { result := []
        messages := ["HeroService: fetched heroes", failMsg "getHeroes" e]
        consoleErrors := [e]
        httpCalls := [⟨"GET", heroesUrl⟩] }

/-- `HeroService.getHero`: `GET api/heroes/id`; on success `tap`-logs
`fetched hero id=...` and yields the hero; on failure
`handleError(`getHero id=...`)` with no configured fallback resolves to
`undefined` (`none`). -/
def getHero (id : Nat) (outcome : HttpOutcome Hero) : OpResult (Option Hero) :=
  match outcome with
  | .success hero =>
      { result := some hero
        messages := [serviceLog ("fetched hero id=" ++ toString id)]
        consoleErrors := []
        httpCalls := [⟨"GET", heroesUrl ++ "/" ++ toString id⟩] }
  | .failure e =>
      { result := none
        messages := [failMsg ("getHero id=" ++ toString id) e]
        consoleErrors := [e]
        httpCalls := [⟨"GET", heroesUrl ++ "/" ++ toString id⟩] }

/-- `HeroService.addHero`: `POST api/heroes` with the new-hero body; on
success `tap`-logs `added hero with id=...` (the server-assigned id) and
yields the created hero; on failure `handleError('addHero')` with no
configured fallback resolves to `undefined` (`none`). -/
def addHero (body : NewHero) (outcome : HttpOutcome Hero) : OpResult (Option Hero) :=
  match body, outcome with
  | _, .success newHero =>
      { result := some newHero
        messages := [serviceLog ("added hero with id=" ++ toString newHero.id)]
        consoleErrors := []
        httpCalls := [⟨"POST", heroesUrl⟩] }
  | _, .failure e =>
      { result := none
        messages := [failMsg "addHero" e]
        consoleErrors := [e]
        httpCalls := [⟨"POST", heroesUrl⟩] }

/-- `const id = typeof hero === 'number' ? hero : hero.id;` — the argument
of `deleteHero` is either a plain numeric id (`Sum.inl`) or a hero object
(`Sum.inr`). -/
def resolveId : Sum Nat Hero → Nat
  | .inl n => n
  | .inr h => h.id

/-- `HeroService.deleteHero`: resolves the id from the union-typed
argument, issues `DELETE api/heroes/id`; on success `tap`-logs
`deleted hero id=...` and yields the response body; on failure
`handleError('deleteHero')` with no configured fallback resolves to
`undefined` (`none`). -/
def deleteHero (hero : Sum Nat Hero) (outcome : HttpOutcome Hero) :
    OpResult (Option Hero) :=
  let id := resolveId hero
  match outcome with
  | .success v =>
      { result := some v
        messages := [serviceLog ("deleted hero id=" ++ toString id)]
        consoleErrors := []
        httpCalls := [⟨"DELETE", heroesUrl ++ "/" ++ toString id⟩] }
  | .failure e =>
      { result := none
        messages := [failMsg "deleteHero" e]
        consoleErrors := [e]
        httpCalls := [⟨"DELETE", heroesUrl ++ "/" ++ toString id⟩] }

/-- `HeroService.searchHeroes`: `if (!term.trim()) return of([])` — a
blank term short-circuits to the empty array with no HTTP call, no sink
message and no console error.  Otherwise `GET api/heroes/?name=term`; on
success the `tap` logs `found heroes matching "term"` when the result is
non-empty and `no heroes matching "term"` when it is empty; on failure
`handleError('searchHeroes', [])` resolves to the empty-array fallback. -/
def searchHeroes (term : String) (outcome : HttpOutcome (List Hero)) :
    OpResult (List Hero) :=
  if jsTrim term = "" then
    { result := [], messages := [], consoleErrors := [], httpCalls := [] }
  else
    match outcome with
    | .success found =>
        { result := found
          messages :=
            [if found.length != 0 then
                serviceLog ("found heroes matching \"" ++ term ++ "\"")
              else
                serviceLog ("no heroes matching \"" ++ term ++ "\"")]
          consoleErrors := []
          httpCalls := [⟨"GET", heroesUrl ++ "/?name=" ++ term⟩] }
    | .failure e =>
        { result := []
          messages := [failMsg "searchHeroes" e]
          consoleErrors := [e]
          httpCalls := [⟨"GET", heroesUrl ++ "/?name=" ++ term⟩] }

/-- One slot of the collection view held by `HeroesComponent.heroes`.  The
TypeScript type is `Hero[]`, but a failed `addHero` resolves to `undefined`
and the component pushes that value into the array unexamined, so at
runtime a slot is either a hero object (`some`) or `undefined` (`none`). -/
abbrev ViewSlot := Option Hero

/-- JavaScript strict inequality `h !== hero` between a view slot and the
hero object passed to `HeroesComponent.delete`: `undefined` is never the
same reference as a hero object, and two hero objects are the same
reference iff their identity tags agree. -/
def slotNotSameRef (slot : ViewSlot) (hero : Hero) : Bool :=
  match slot with
  | none => true
  | some g => g.ref != hero.ref

/-- `HeroesComponent.delete`: synchronously replaces the view with
`this.heroes.filter(h => h !== hero)` and then fire-and-forgets
`deleteHero(hero).subscribe()` — the empty subscription ignores the
backend outcome, so the resulting view is the same for every `outcome`
(hence the unused parameter: the view update happens immediately,
regardless of whether or when the backend responds). -/
def componentDelete (hero : Hero) (view : List ViewSlot)
    (outcome : HttpOutcome Hero) : List ViewSlot :=
  view.filter (fun h => slotNotSameRef h hero)

/-- `HeroesComponent.add`: trims the name; a blank name returns without
touching the service or the view.  Otherwise it calls
`addHero({ name } as Hero)` and the subscribe callback pushes the resolved
value (the created hero, or `undefined` on recovered failure) onto the
view.  Returns the updated view together with the HTTP calls issued. -/
def componentAdd (name : String) (outcome : HttpOutcome Hero)
    (view : List ViewSlot) : List ViewSlot × List HttpCall :=
  let trimmed := jsTrim name
  if trimmed = "" then (view, [])
  else
    let r := addHero ⟨trimmed⟩ outcome
    (view ++ [r.result], r.httpCalls)

/-!
## The search pipeline

`HeroSearchComponent.ngOnInit` builds
`searchTerms.pipe(debounceTime(300), distinctUntilChanged(), switchMap(searchHeroes))`.
The input is the finite timed trace of `search(term)` submissions, as
`(time, term)` pairs in arrival order.
-/

/-- `debounceTime(300)` over a timed trace: each submitted term is emitted
300ms after its arrival unless a newer term arrives first (strictly within
the 300ms window), in which case the older term is suppressed.  The last
term of the trace is always emitted.  The output pairs each surviving term
with its emission time. -/
def debounceOut : List (Nat × String) → List (Nat × String)
  | [] => []
  | [e] => [(e.1 + 300, e.2)]
  | e :: f :: rest =>
      if e.1 + 300 ≤ f.1 then (e.1 + 300, e.2) :: debounceOut (f :: rest)
      else debounceOut (f :: rest)

/-- `distinctUntilChanged()` relative to the last emitted term (`none` at
subscription time, before anything has been emitted): an element is
suppressed exactly when its term equals the most recently emitted one. -/
def dedupFrom : Option String → List (Nat × String) → List (Nat × String)
  | _, [] => []
  | last, e :: rest =>
      if some e.2 = last then dedupFrom last rest
      else e :: dedupFrom (some e.2) rest

/-- `distinctUntilChanged()` applied to the debounced stream from its
start. -/
def dedup (l : List (Nat × String)) : List (Nat × String) := dedupFrom none l

/-- The searches dispatched by `switchMap(term => searchHeroes(term))`:
one `searchHeroes` call per term surviving debounce and deduplication, at
its debounced emission time. -/
def dispatches (events : List (Nat × String)) : List (Nat × String) :=
  dedup (debounceOut events)

/-- A response schedule for the dispatched searches: the i-th dispatched
search either never resolves (`none`) or resolves at an arrival time with
a result batch. -/
abbrev RespSchedule := Nat → Option (Nat × List Hero)

/-- The result batches the consumer of `heroes$` observes, in order, under
`switchMap` semantics: the inner observable of dispatch i is subscribed at
its dispatch and unsubscribed when dispatch i+1 occurs, so its response is
observed iff it is the last dispatch or its response arrives strictly
before the next dispatch; a superseded response is discarded and never
observed. -/
def observeFrom : Nat → List (Nat × String) → RespSchedule →
    List (String × List Hero)
  | _, [], _ => []
  | i, d :: rest, resp =>
      let tail := observeFrom (i + 1) rest resp
      match resp i with
      | none => tail
      | some (r, v) =>
          match rest with
          | [] => (d.2, v) :: tail
          | next :: _ => if r < next.1 then (d.2, v) :: tail else tail

/-- The observations of a whole dispatch list, starting at index 0. -/
def observations (ds : List (Nat × String)) (resp : RespSchedule) :
    List (String × List Hero) :=
  observeFrom 0 ds resp

/-- A burst: strictly less than 300ms between consecutive submissions. -/
def isBurst : List (Nat × String) → Bool
  | [] => true
  | [_] => true
  | e :: f :: rest => decide (f.1 < e.1 + 300) && isBurst (f :: rest)

/-!
## Claim theorems
-/

/-- Claim C4: for every term whose trimmed value is the empty string,
`searchHeroes` short-circuits: it resolves immediately to the empty
sequence, issues zero network calls, emits no sink message and records no
console error — whatever the (never-consulted) transport outcome would
have been. -/
theorem searchHeroes_blank_shortcircuits (term : String)
    (outcome : HttpOutcome (List Hero)) (h : jsTrim term = "") :
    (searchHeroes term outcome).result = [] ∧
    (searchHeroes term outcome).httpCalls = [] ∧
    (searchHeroes term outcome).messages = [] ∧
    (searchHeroes term outcome).consoleErrors = [] := by
  simp [searchHeroes, h]

/-- Witness for C4 at the whitespace-only term `"  "`. -/
theorem searchHeroes_blank_shortcircuits_w :
    jsTrim "  " = "" ∧
      (searchHeroes "  " (.success [⟨1, 1, "A"⟩])).result = [] ∧
      (searchHeroes "  " (.success [⟨1, 1, "A"⟩])).httpCalls = [] ∧
      (searchHeroes "  " (.success [⟨1, 1, "A"⟩])).messages = [] ∧
      (searchHeroes "  " (.success [⟨1, 1, "A"⟩])).consoleErrors = [] :=
  ⟨by decide, searchHeroes_blank_shortcircuits "  " (.success [⟨1, 1, "A"⟩]) (by decide)⟩

/-- Counterexample to claim C5 as stated: a successful `getHeroes` call
does not emit exactly one `fetched heroes` sink message — the eager
`messageService.add` at invocation and the success `tap` each emit one, so
the sink receives the message twice. -/
theorem getHeroes_not_single_log :
    ¬ (getHeroes (.success [⟨0, 42, "A"⟩])).messages.count
        "HeroService: fetched heroes" = 1 := by
  decide

/-- Claim C5 (amended): every successful `getHeroes` call returns exactly
the fetched sequence, and emits exactly two sink messages, both reading
`HeroService: fetched heroes` — one synchronously at invocation and one
from the success `tap`. -/
theorem getHeroes_success_spec (heroes : List Hero) :
    (getHeroes (.success heroes)).result = heroes ∧
    (getHeroes (.success heroes)).messages =
      ["HeroService: fetched heroes", "HeroService: fetched heroes"] ∧
    (getHeroes (.success heroes)).messages.count "HeroService: fetched heroes" = 2 ∧
    (getHeroes (.success heroes)).consoleErrors = [] := by
  refine ⟨rfl, rfl, rfl, rfl⟩

/-- Claim C8: `deleteHero` accepts either a plain numeric id or a hero
object, resolves the id accordingly, issues `DELETE api/heroes/id` for the
resolved id in both the success and the failure run, logs
`deleted hero id=...` on success, and on failure falls back to `undefined`
with the single failure sink message and console error. -/
theorem deleteHero_contract (arg : Sum Nat Hero) (n : Nat) (g v : Hero)
    (e : JsError) :
    resolveId (Sum.inl n) = n ∧
    resolveId (Sum.inr g) = g.id ∧
    (deleteHero arg (.success v)).httpCalls =
      [⟨"DELETE", heroesUrl ++ "/" ++ toString (resolveId arg)⟩] ∧
    (deleteHero arg (.success v)).result = some v ∧
    (deleteHero arg (.success v)).messages =
      [serviceLog ("deleted hero id=" ++ toString (resolveId arg))] ∧
    (deleteHero arg (.failure e)).httpCalls =
      [⟨"DELETE", heroesUrl ++ "/" ++ toString (resolveId arg)⟩] ∧
    (deleteHero arg (.failure e)).result = none ∧
    (deleteHero arg (.failure e)).messages = [failMsg "deleteHero" e] ∧
    (deleteHero arg (.failure e)).consoleErrors = [e] :=
  ⟨rfl, rfl, rfl, rfl, rfl, rfl, rfl, rfl, rfl⟩

/-- Claim C9: when the name is non-blank and the create request fails at
the transport level, the view still grows by exactly one element, and the
appended element is the `undefined` fallback rather than an entity. -/
theorem add_failure_appends_undefined (name : String) (e : JsError)
    (view : List ViewSlot) (h : jsTrim name ≠ "") :
    (componentAdd name (.failure e) view).1 = view ++ [none] ∧
    (componentAdd name (.failure e) view).1.length = view.length + 1 := by
  simp [componentAdd, addHero, h]

/-- Witness for C9 at name `"Nova"` and a one-element view. -/
theorem add_failure_appends_undefined_w :
    jsTrim "Nova" ≠ "" ∧
      (componentAdd "Nova" (.failure ⟨"down"⟩) [some ⟨0, 1, "A"⟩]).1 =
        [some ⟨0, 1, "A"⟩] ++ [none] :=
  ⟨by decide,
    (add_failure_appends_undefined "Nova" ⟨"down"⟩ [some ⟨0, 1, "A"⟩] (by decide)).1⟩

/-- Claim C10: a blank name makes `add` a no-op at the public interface —
no create call is issued and the view is returned unchanged. -/
theorem add_blank_noop (name : String) (outcome : HttpOutcome Hero)
    (view : List ViewSlot) (h : jsTrim name = "") :
    componentAdd name outcome view = (view, []) := by
  simp [componentAdd, h]

/-- Witness for C10 at the whitespace-only name `" "`. -/
theorem add_blank_noop_w :
    jsTrim " " = "" ∧
      componentAdd " " (.success ⟨9, 9, "Z"⟩) [some ⟨0, 1, "A"⟩] =
        ([some ⟨0, 1, "A"⟩], []) :=
  ⟨by decide, add_blank_noop " " (.success ⟨9, 9, "Z"⟩) [some ⟨0, 1, "A"⟩] (by decide)⟩

/-- The eager `fetched heroes` sink message can never coincide with the
`getHeroes` failure message, whatever the error text: their lengths
differ. -/
theorem fetched_ne_getHeroes_failMsg (e : JsError) :
    ("HeroService: fetched heroes" : String) ≠ failMsg "getHeroes" e := by
  intro h
  have hlen := congrArg String.length h
  rw [failMsg, serviceLog, String.length_append, String.length_append] at hlen
  have h1 : ("HeroService: " : String).length = 13 := rfl
  have h2 : ("getHeroes" ++ " failed: " : String).length = 18 := rfl
  have h3 : ("HeroService: fetched heroes" : String).length = 27 := rfl
  rw [h1, h2, h3] at hlen
  omega

/-- Claim C1: for each of the four operations whose underlying HTTP call
can fail and which are configured with a fallback (`getHeroes` and
`searchHeroes` with `[]`, `getHero` and `deleteHero` with the implicit
`undefined`), a transport failure resolves to exactly the fallback value
(the embedding is a total function, so the operation never rejects),
records exactly one error to the console channel, and emits exactly one
sink message of the failure form produced by `handleError` for that
operation's name. -/
theorem handleError_recovers (e : JsError) (id : Nat) (term : String)
    (arg : Sum Nat Hero) (hterm : jsTrim term ≠ "") :
    ((getHeroes (.failure e)).result = [] ∧
      (getHeroes (.failure e)).consoleErrors = [e] ∧
      (getHeroes (.failure e)).messages.count (failMsg "getHeroes" e) = 1) ∧
    ((getHero id (.failure e)).result = none ∧
      (getHero id (.failure e)).consoleErrors = [e] ∧
      (getHero id (.failure e)).messages =
        [failMsg ("getHero id=" ++ toString id) e]) ∧
    ((searchHeroes term (.failure e)).result = [] ∧
      (searchHeroes term (.failure e)).consoleErrors = [e] ∧
      (searchHeroes term (.failure e)).messages = [failMsg "searchHeroes" e]) ∧
    ((deleteHero arg (.failure e)).result = none ∧
      (deleteHero arg (.failure e)).consoleErrors = [e] ∧
      (deleteHero arg (.failure e)).messages = [failMsg "deleteHero" e]) := by
  refine ⟨⟨rfl, rfl, ?_⟩, ⟨rfl, rfl, rfl⟩, ?_, ⟨rfl, rfl, rfl⟩⟩
  · show List.count _ ["HeroService: fetched heroes", failMsg "getHeroes" e] = 1
    simp [List.count_cons, fetched_ne_getHeroes_failMsg e]
  · simp [searchHeroes, hterm]

/-- Witness for C1 at error `boom`, id 5, term `"a"`, numeric delete
argument 3. -/
theorem handleError_recovers_w :
    jsTrim "a" ≠ "" ∧
      (getHeroes (.failure ⟨"boom"⟩)).messages.count (failMsg "getHeroes" ⟨"boom"⟩) = 1 ∧
      (searchHeroes "a" (.failure ⟨"boom"⟩)).messages =
        [failMsg "searchHeroes" ⟨"boom"⟩] :=
  ⟨by decide,
    (handleError_recovers ⟨"boom"⟩ 5 "a" (Sum.inl 3) (by decide)).1.2.2,
    (handleError_recovers ⟨"boom"⟩ 5 "a" (Sum.inl 3) (by decide)).2.2.1.2.2⟩

/-- Claim C6: if the view contains the hero object with id 42 and id 42
identifies only that object in the view, then invoking `delete` for that
object leaves a view with no id-42 entity — for every backend outcome,
since the view update is synchronous and the empty subscription ignores
the response. -/
theorem delete_removes_target_id (hero : Hero) (view : List ViewSlot)
    (outcome : HttpOutcome Hero) (hmem : some hero ∈ view) (hid : hero.id = 42)
    (huniq : ∀ g : Hero, some g ∈ view → g.id = 42 → g.ref = hero.ref) :
    ∀ g : Hero, some g ∈ componentDelete hero view outcome → g.id ≠ 42 := by
  intro g hg h42
  rw [componentDelete, List.mem_filter] at hg
  obtain ⟨hmem2, hkeep⟩ := hg
  have href := huniq g hmem2 h42
  simp [slotNotSameRef, href] at hkeep

/-- Witness for C6: deleting the id-42 hero from a two-element view leaves
no id-42 entity, with the backend failing. -/
theorem delete_removes_target_id_w :
    some (⟨0, 42, "X"⟩ : Hero) ∈ [some (⟨0, 42, "X"⟩ : Hero), some ⟨1, 7, "Y"⟩] ∧
      some (⟨5, 42, "W"⟩ : Hero) ∉
        componentDelete ⟨0, 42, "X"⟩ [some ⟨0, 42, "X"⟩, some ⟨1, 7, "Y"⟩]
          (.failure ⟨"down"⟩) :=
  ⟨by decide, fun hmem =>
    delete_removes_target_id ⟨0, 42, "X"⟩ [some ⟨0, 42, "X"⟩, some ⟨1, 7, "Y"⟩]
      (.failure ⟨"down"⟩) (by decide) rfl
      (by
        intro g hg h42
        simp at hg
        rcases hg with rfl | rfl
        · rfl
        · exact absurd h42 (by decide))
      ⟨5, 42, "W"⟩ hmem rfl⟩

/-- Deduplication relative to any last-emitted value ignores a trailing
repeat of the final term. -/
theorem dedupFrom_append_repeat (o : Option String) (l : List (Nat × String))
    (ta tb : Nat) (x : String) :
    dedupFrom o (l ++ [(ta, x), (tb, x)]) = dedupFrom o (l ++ [(ta, x)]) := by
  induction l generalizing o with
  | nil =>
      by_cases h : some x = o
      · subst h
        simp [dedupFrom]
      · simp [dedupFrom, h]
  | cons f rest ih =>
      by_cases h : some f.2 = o
      · simp [dedupFrom, h, ih]
      · simp [dedupFrom, h, ih]

/-- Claim C7: if the debounced (surviving) stream ends with two equal
consecutive terms, the pipeline dispatches exactly what it would have
dispatched had the repeat not occurred — `distinctUntilChanged` suppresses
the repeated surviving term, so no search call is dispatched for it. -/
theorem dedup_suppresses_repeat (evts l : List (Nat × String)) (ta tb : Nat)
    (x : String) (h : debounceOut evts = l ++ [(ta, x), (tb, x)]) :
    dispatches evts = dedup (l ++ [(ta, x)]) := by
  show dedup (debounceOut evts) = dedup (l ++ [(ta, x)])
  rw [h]
  exact dedupFrom_append_repeat none l ta tb x

/-- Witness for C7: submitting `"a"` twice, 400ms apart, dispatches the
same single search as submitting it once. -/
theorem dedup_suppresses_repeat_w :
    debounceOut [(0, "a"), (400, "a")] = [] ++ [(300, "a"), (700, "a")] ∧
      dispatches [(0, "a"), (400, "a")] = [(300, "a")] :=
  ⟨by decide, by
    have h := dedup_suppresses_repeat [(0, "a"), (400, "a")] [] 300 700 "a" (by decide)
    exact h.trans (by decide)⟩

/-- Claim C3: for a nonempty burst of submissions with strictly less than
300ms between consecutive terms, the pipeline dispatches exactly one
search — for the last term of the burst (hence at most one downstream
`searchHeroes` call). -/
theorem debounce_burst_single (e : Nat × String) (es : List (Nat × String))
    (h : isBurst (e :: es) = true) :
    dispatches (e :: es) = [((es.getLastD e).1 + 300, (es.getLastD e).2)] := by
  induction es generalizing e with
  | nil => simp [dispatches, debounceOut, dedup, dedupFrom]
  | cons f rest ih =>
      have hb : (decide (f.1 < e.1 + 300) && isBurst (f :: rest)) = true := by
        simpa [isBurst] using h
      rw [Bool.and_eq_true] at hb
      have hf : f.1 < e.1 + 300 := of_decide_eq_true hb.1
      have hdb : debounceOut (e :: f :: rest) = debounceOut (f :: rest) := by
        simp only [debounceOut]
        rw [if_neg (by omega)]
      have hstep : dispatches (e :: f :: rest) = dispatches (f :: rest) := by
        show dedup (debounceOut (e :: f :: rest)) = dedup (debounceOut (f :: rest))
        rw [hdb]
      rw [hstep, ih f hb.2, List.getLastD_cons]

/-- Witness for C3: a two-term burst 100ms apart dispatches exactly one
search, for the last term. -/
theorem debounce_burst_single_w :
    isBurst [(0, "a"), (100, "ab")] = true ∧
      dispatches [(0, "a"), (100, "ab")] = [(400, "ab")] :=
  ⟨by decide, by
    have h := debounce_burst_single (0, "a") [(100, "ab")] (by decide)
    exact h.trans (by decide)⟩

/-- Claim C2: terms `t1` then `t2` submitted more than 300ms apart (with
`t1 ≠ t2`, else no `t2` search is dispatched), where `t1`'s response
arrives strictly after `t2`'s search was dispatched: the consumer never
observes `t1`'s result — the observations are exactly `t2`'s result if it
ever resolves, and nothing otherwise, so observed-result order trivially
matches dispatch order. -/
theorem switch_supersedes_stale (s1 s2 : Nat) (t1 t2 : String)
    (resp : RespSchedule) (r1 : Nat) (v1 : List Hero)
    (hgap : s1 + 300 < s2) (hne : t1 ≠ t2)
    (h0 : resp 0 = some (r1, v1)) (hlate : s2 + 300 < r1) :
    observations (dispatches [(s1, t1), (s2, t2)]) resp =
      ((resp 1).map (fun p => (t2, p.2))).toList := by
  have hds : dispatches [(s1, t1), (s2, t2)] = [(s1 + 300, t1), (s2 + 300, t2)] := by
    simp [dispatches, debounceOut, dedup, dedupFrom, hgap.le, Ne.symm hne]
  rw [hds, observations]
  have hnotlt : ¬ (r1 < s2 + 300) := by omega
  cases h1 : resp 1 with
  | none => simp [observeFrom, h0, h1, hnotlt]
  | some p => simp [observeFrom, h0, h1, hnotlt]

/-- Witness for C2: `"a"` at 0ms and `"b"` at 400ms, with `"a"`'s response
arriving at 800ms (after `"b"`'s dispatch at 700ms): only `"b"`'s result
is observed. -/
theorem switch_supersedes_stale_w :
    (0 + 300 < 400) ∧ (("a" : String) ≠ "b") ∧
      observations (dispatches [(0, "a"), (400, "b")])
        (fun n => if n = 0 then some (800, ([] : List Hero))
                  else some (900, [⟨7, 7, "B"⟩])) =
        [("b", [⟨7, 7, "B"⟩])] :=
  ⟨by decide, by decide, by
    have h := switch_supersedes_stale 0 400 "a" "b"
      (fun n => if n = 0 then some (800, ([] : List Hero))
                else some (900, [⟨7, 7, "B"⟩])) 800 []
      (by decide) (by decide) (by decide) (by decide)
    exact h.trans (by decide)⟩

example : jsTrim "  " = "" := by decide
example : jsTrim "Nova" ≠ "" := by decide
example : jsTrim " a b " = "a b" := by decide
example : serviceLog "fetched heroes" = "HeroService: fetched heroes" := rfl
example :
    (getHeroes (.success [⟨0, 42, "A"⟩])).messages.count
      "HeroService: fetched heroes" = 2 := by decide
example : (searchHeroes " " (.success [])).httpCalls = [] := by decide
example : dispatches [(0, "a"), (100, "ab"), (150, "abc")] = [(450, "abc")] := by
  decide
example : dispatches [(0, "a"), (400, "a")] = [(300, "a")] := by decide
example : dispatches [(0, "a"), (400, "b")] = [(300, "a"), (700, "b")] := by decide
example :
    observations [(300, "a"), (700, "b")]
      (fun n => if n = 0 then some (800, []) else some (900, [⟨7, 7, "B"⟩])) =
      [("b", [⟨7, 7, "B"⟩])] := by decide
example :
    observations [(300, "a"), (700, "b")]
      (fun n => if n = 0 then some (650, [⟨1, 1, "A"⟩]) else none) =
      [("a", [⟨1, 1, "A"⟩])] := by decide
example : componentAdd "Nova" (.failure ⟨"down"⟩) [some ⟨0, 1, "A"⟩] =
    ([some ⟨0, 1, "A"⟩, none], [⟨"POST", "api/heroes"⟩]) := by decide
example : componentDelete ⟨0, 42, "X"⟩ [some ⟨0, 42, "X"⟩, some ⟨1, 7, "Y"⟩]
    (.failure ⟨"down"⟩) = [some ⟨1, 7, "Y"⟩] := by decide
